import Mathlib

/-!
# A shallow embedding of the LangGraph-DnD core

This file embeds the turn-orchestration core of the repository in Lean 4 and
proves/refutes the behavioural claims of its specification.

Conventions of the embedding:
* Python `str` is Lean `String`; `str.lower()` / `str.upper()` are
  `strLower` / `strUpper` (character-wise; the repository only handles ASCII text).
* Python `dict` (insertion ordered, unique keys) is an association list
  `List (String × α)`; insertion/replacement keeps the position of an existing
  key and appends fresh keys, like CPython dicts.
* Python `int` is `Int`; turn counters and list lengths are `Nat`.
* `datetime.now()` is an ambient clock passed explicitly as a `Nat` argument
  to every operation that stamps a timestamp.
* The external text-generation service (`ChatOpenAI` behind LangChain prompt
  chaining) is an explicit parameter `gen : String → String → String`
  mapping (system prompt, human prompt) to the returned text.
* A raised Python exception is an `Except`-style error value; in the graph
  pipeline the error value additionally carries the state at the raise point,
  because in-place mutations that happened before the raise survive it.
-/

namespace DnD

/-! ## Python string helpers -/

/-- `needle` occurs as a contiguous substring of `hay` (Python's `in` on
strings), computed on the underlying character lists. -/
def strContainsSub (hay needle : String) : Bool :=
  hay.toList.tails.any fun t => needle.toList.isPrefixOf t

/-- Python `str.lower()`: character-wise lowercasing (the repository only
handles ASCII text, where this matches CPython). -/
def strLower (s : String) : String := ⟨s.data.map Char.toLower⟩

/-- Python `str.upper()`: character-wise uppercasing. -/
def strUpper (s : String) : String := ⟨s.data.map Char.toUpper⟩

/-- Python truthiness of an `Optional[str]`: `None` and `""` are falsy. -/
def pyTruthyOptStr : Option String → Bool
  | none => false
  | some s => s ≠ ""

/-- Python slice `s[:n]` on a string. -/
def strTake (s : String) (n : Nat) : String :=
  ⟨s.toList.take n⟩

/-! ## Python dict helpers (insertion-ordered association lists) -/

/-- `d.get(k)` / `d[k]` lookup: value at the first occurrence of `k`. -/
def dictGet (m : List (String × α)) (k : String) : Option α :=
  (m.find? fun p => p.1 == k).map Prod.snd

/-- `d[k] = v`: replace in place if the key exists, else append. -/
def dictSet (m : List (String × α)) (k : String) (v : α) : List (String × α) :=
  if m.any fun p => p.1 == k then
    m.map fun p => if p.1 == k then (k, v) else p
  else
    m ++ [(k, v)]

/-- `d.update(other)`: left-to-right `d[k] = v` for every pair of `other`. -/
def dictUpdate (m other : List (String × α)) : List (String × α) :=
  other.foldl (fun acc p => dictSet acc p.1 p.2) m

/-- `list(d.keys())`. -/
def dictKeys (m : List (String × α)) : List String :=
  m.map Prod.fst

/-! ## Data model: characters (`dnd/core/models/characters.py`) -/

/-- Fields of the pydantic `Character` base model. -/
structure CharBase where
  name : String
  health : Int := 100
  max_health : Int := 100
  inventory : List String := []
  location : String := "unknown"
  abilities : List (String × Int) := []
  known_facts : List String := []
  secrets : List (String × String) := []
  deriving Repr, DecidableEq

/-- A character value together with its concrete pydantic class
(`Character`, `PlayerCharacter` or `NPC`).  The subclasses add their
kind-specific fields on top of the shared `CharBase`. -/
inductive Character where
  | base (c : CharBase)
  | player (c : CharBase) (player_id : String) (secret_objectives : List String)
  | npc (c : CharBase) (motivations : List String) (personality : String)
      (disposition : List (String × Int)) (knowledge : List String)
  deriving Repr, DecidableEq

/-- The shared `Character` fields of any concrete character. -/
def Character.core : Character → CharBase
  | .base c => c
  | .player c _ _ => c
  | .npc c _ _ _ _ => c

/-- Apply an update to the shared fields, keeping the concrete kind and its
kind-specific fields. -/
def Character.mapCore (f : CharBase → CharBase) : Character → Character
  | .base c => .base (f c)
  | .player c pid so => .player (f c) pid so
  | .npc c m p d k => .npc (f c) m p d k

/-- `Character.has_item`: case-insensitive inventory membership. -/
def Character.has_item (ch : Character) (item : String) : Bool :=
  ch.core.inventory.map strLower |>.contains (strLower item)

/-- `Character.add_item`: append unless already present case-insensitively. -/
def Character.add_item (ch : Character) (item : String) : Character :=
  if ch.has_item item then ch
  else ch.mapCore fun c => { c with inventory := c.inventory ++ [item] }

/-- `Character.remove_item`: drop every case-insensitive occurrence. -/
def Character.remove_item (ch : Character) (item : String) : Character :=
  ch.mapCore fun c =>
    { c with inventory := c.inventory.filter fun i => strLower i ≠ strLower item }

/-! ## Data model: rulings (`dnd/core/models/rulings.py`) -/

/-- `RulingOutcome` enum. -/
inductive RulingOutcome where
  | SUCCESS
  | FAILURE
  | PARTIAL
  | UNCERTAIN
  deriving Repr, DecidableEq

/-- `RulingOutcome.value` string of the enum member. -/
def RulingOutcome.value : RulingOutcome → String
  | .SUCCESS => "SUCCESS"
  | .FAILURE => "FAILURE"
  | .PARTIAL => "PARTIAL"
  | .UNCERTAIN => "UNCERTAIN"

/-- `ReasoningStep` model. -/
structure ReasoningStep where
  step_number : Nat
  description : String
  relevant_facts : List String := []
  conclusion : Option String := none
  deriving Repr, DecidableEq

/-- `ReasoningTrace` model. -/
structure ReasoningTrace where
  situation : String
  relevant_facts : List String := []
  steps : List ReasoningStep := []
  final_conclusion : String
  timestamp : Nat := 0
  deriving Repr, DecidableEq

/-- `ReasoningTrace.add_step`: append a step numbered `len(steps) + 1`. -/
def ReasoningTrace.add_step (tr : ReasoningTrace) (description : String)
    (facts : List String) (conclusion : Option String) : ReasoningTrace :=
  { tr with
    steps := tr.steps ++ [{ step_number := tr.steps.length + 1
                            description := description
                            relevant_facts := facts
                            conclusion := conclusion }] }

/-- The state-delta mapping of a ruling.  The source type is an open
`Dict[str, Any]`; the ruling engine (`GameMaster._determine_state_changes`)
only ever emits the five recognized keys below, and the health amounts it
emits are the non-negative literals 20 and 5, so the amounts are `Nat`.
`unrecognized` stands for any further keys, which the orchestrator ignores. -/
structure StateChanges where
  item_acquired : Option String := none
  item_used : Option String := none
  health_restored : Option Nat := none
  damage_taken : Option Nat := none
  world_changes : List (String × String) := []
  unrecognized : List (String × String) := []
  deriving Repr, DecidableEq

/-- `Ruling` model. -/
structure Ruling where
  action : String
  outcome : RulingOutcome
  reasoning : ReasoningTrace
  narrative : String
  state_changes : StateChanges := {}
  can_challenge : Bool := true
  challenged : Bool := false
  challenge_resolution : Option String := none
  timestamp : Nat := 0
  deriving Repr, DecidableEq

/-! ## Data model: knowledge (`dnd/core/models/knowledge.py`) -/

/-- `ConfidenceLevel` enum. -/
inductive ConfidenceLevel where
  | FACT
  | HIGH
  | MEDIUM
  | LOW
  | SPECULATION
  | AMBIGUOUS
  deriving Repr, DecidableEq

/-- `Fact` model. -/
structure Fact where
  content : String
  confidence : ConfidenceLevel := .FACT
  source : Option String := none
  turn_observed : Option Nat := none
  metadata : List (String × String) := []
  deriving Repr, DecidableEq

/-- `Interpretation` model (probability kept as a pair of naturals is not
needed by any claim; the rendered float string is irrelevant here, so the
probability is carried verbatim as the source literal string). -/
structure Interpretation where
  meaning : String
  probability : String := "0.5"
  reasoning : Option String := none
  context : List (String × String) := []
  deriving Repr, DecidableEq

/-- `KnowledgeGraph` model. -/
structure KnowledgeGraph where
  facts : List Fact := []
  interpretations : List (String × List Interpretation) := []
  relations : List (String × List (String × String)) := []
  deriving Repr, DecidableEq

/-- The `confidence_order` ranking used by `get_facts_by_confidence`. -/
def confidenceOrder : ConfidenceLevel → Nat
  | .FACT => 5
  | .HIGH => 4
  | .MEDIUM => 3
  | .LOW => 2
  | .SPECULATION => 1
  | .AMBIGUOUS => 0

/-- `KnowledgeGraph.get_facts_by_confidence`. -/
def KnowledgeGraph.get_facts_by_confidence (kg : KnowledgeGraph)
    (min_confidence : ConfidenceLevel) : List Fact :=
  kg.facts.filter fun f => confidenceOrder f.confidence ≥ confidenceOrder min_confidence

/-- `KnowledgeGraph.add_fact`. -/
def KnowledgeGraph.add_fact (kg : KnowledgeGraph) (f : Fact) : KnowledgeGraph :=
  { kg with facts := kg.facts ++ [f] }

/-- `KnowledgeGraph.add_relation`: append-only with duplicate suppression. -/
def KnowledgeGraph.add_relation (kg : KnowledgeGraph)
    (relation_type subject object_ : String) : KnowledgeGraph :=
  let existing := (dictGet kg.relations relation_type).getD []
  if (subject, object_) ∈ existing then kg
  else { kg with relations := dictSet kg.relations relation_type (existing ++ [(subject, object_)]) }

/-! ## Data model: state (`dnd/core/models/state.py`) -/

/-- `EventType` enum. -/
inductive EventType where
  | player_action
  | gm_narration
  | ruling
  | state_change
  | npc_action
  | secret_revealed
  deriving Repr, DecidableEq

/-- `Event` model. -/
structure Event where
  turn_number : Nat
  event_type : EventType
  actor : String
  content : String
  metadata : List (String × String) := []
  timestamp : Nat := 0
  visible_to : List String := []
  deriving Repr, DecidableEq

/-- The state snapshot a finished turn carries
(`{"characters": {name: char.model_dump()}, "world_state": ...}`).  The
per-character dump is kept as the character value itself: the dump is a
field-for-field rendering and no claim inspects snapshot internals. -/
structure Snapshot where
  characters : List (String × Character) := []
  world_state : List (String × String) := []
  deriving Repr, DecidableEq

/-- `Turn` model. -/
structure Turn where
  turn_number : Nat
  player_name : Option String := none
  action : Option String := none
  gm_response : Option String := none
  ruling : Option Ruling := none
  events : List Event := []
  state_snapshot : Snapshot := {}
  timestamp : Nat := 0
  deriving Repr, DecidableEq

/-- `GameState` model. -/
structure GameState where
  session_id : String
  current_turn : Nat := 0
  turns : List Turn := []
  characters : List (String × Character) := []
  npcs : List (String × Character) := []
  world_state : List (String × String) := []
  knowledge_graph : KnowledgeGraph := {}
  created_at : Nat := 0
  updated_at : Nat := 0
  deriving Repr, DecidableEq

/-- `GameState.get_character`. -/
def GameState.get_character (g : GameState) (name : String) : Option Character :=
  dictGet g.characters name

/-- `GameState.add_turn`: append the turn, set the counter to the new length
and refresh `updated_at`. -/
def GameState.add_turn (g : GameState) (t : Turn) (now : Nat) : GameState :=
  { g with
    turns := g.turns ++ [t]
    current_turn := g.turns.length + 1
    updated_at := now }

/-! ## Ruling engine (`dnd/core/agents/gm.py`)

`GameMaster` (public alias `Keeper`, which in the source ends up owning the
helper methods below) delegates free-text judgement to the external
generation service `gen : systemPrompt → humanPrompt → text`. -/

/-- A Python single-quote, written as an escape. -/
def sq : String := "\x27"

/-- `str(d)` for a `dict` with string keys and string values, as used by
`_identify_obstacles` on `game_state.world_state`. -/
def pyStrOfStrDict (m : List (String × String)) : String :=
  "\x7b" ++ String.intercalate ", " (m.map fun p => sq ++ p.1 ++ sq ++ ": " ++ sq ++ p.2 ++ sq) ++ "\x7d"

/-- Python `opt or default` for an `Optional[str]` (`None` and `""` are falsy). -/
def pyOrStr (o : Option String) (default : String) : String :=
  if pyTruthyOptStr o then o.getD default else default

/-- The exceptions Python's `str.format` raises while substituting: `KeyError`
for a replacement field naming no keyword argument, `ValueError` for a stray
or unterminated brace. -/
inductive FormatError where
  | keyError (field : String)
  | valueError
  deriving Repr, DecidableEq

/-- One pass of Python `str.format` substitution over the character list.
The first argument is `some acc` while inside a replacement field (`acc` the
field text so far, reversed).  `\x7b\x7b` / `\x7d\x7d` escape to literal
braces; a field is substituted by the keyword argument of that name; an
unknown field name raises `KeyError`; a single `\x7d` or an unterminated
`\x7b` raises `ValueError`.  A field is modeled as its verbatim text up to
the closing brace and must equal a keyword name exactly: Python's
format-spec / attribute / index syntax inside a field — which the one call
site never uses in its own template, every such field coming from foreign
text — also raises for unknown names, merely with a different exception
class, except for a conversion or format-spec suffix on a *known* name,
which this model rejects and Python would apply. -/
def pyFormatGo (kwargs : List (String × String)) :
    Option (List Char) → List Char → Except FormatError (List Char)
  | none, [] => .ok []
  | some _, [] => .error .valueError
  | none, '\x7b' :: '\x7b' :: rest => ('\x7b' :: ·) <$> pyFormatGo kwargs none rest
  | none, '\x7d' :: '\x7d' :: rest => ('\x7d' :: ·) <$> pyFormatGo kwargs none rest
  | none, '\x7b' :: rest => pyFormatGo kwargs (some []) rest
  | none, '\x7d' :: _ => .error .valueError
  | none, c :: rest => (c :: ·) <$> pyFormatGo kwargs none rest
  | some acc, '\x7d' :: rest =>
    match dictGet kwargs ⟨acc.reverse⟩ with
    | some v => (v.data ++ ·) <$> pyFormatGo kwargs none rest
    | none => .error (.keyError ⟨acc.reverse⟩)
  | some acc, c :: rest => pyFormatGo kwargs (some (c :: acc)) rest

/-- Python `template.format(**kwargs)` (string-valued keyword arguments). -/
def pyFormat (template : String) (kwargs : List (String × String)) :
    Except FormatError String :=
  match pyFormatGo kwargs none template.data with
  | .ok cs => .ok ⟨cs⟩
  | .error e => .error e

/-- The errors `GameMaster.resolve_action` lets escape: a `ValueError` for an
unknown character (the spec names it `CharacterNotFoundError`), or a
`KeyError`/`ValueError` escaping the `.format(...)` call of
`_reason_about_outcome`. -/
inductive GMError where
  | characterNotFound (name : String)
  | format (e : FormatError)
  deriving Repr, DecidableEq

/-- `Keeper._gather_relevant_facts`. -/
def gather_relevant_facts (g : GameState) (character : CharBase) (action : String) :
    List String :=
  let facts := [character.name ++ " has " ++ toString character.health ++ "/" ++
    toString character.max_health ++ " health"]
  let facts := if character.inventory.isEmpty then facts
    else facts ++ [character.name ++ " has items: " ++ String.intercalate ", " character.inventory]
  let facts := facts ++ [character.name ++ " is at " ++ character.location]
  let facts := if g.world_state.isEmpty then facts
    else facts ++ ["World state: " ++
      String.intercalate ", " (g.world_state.map fun p => p.1 ++ ": " ++ p.2)]
  facts ++ ((g.turns.drop (g.turns.length - 3)).filterMap fun t =>
    if pyTruthyOptStr t.gm_response then
      some ("Recent: " ++ strTake (t.gm_response.getD "") 100)
    else none)

/-- `Keeper._check_abilities`.  (The subclass-specific fields of the character
are never read by the helpers, so they take the shared `CharBase` fields.) -/
def check_abilities (character : CharBase) (action : String) : String :=
  let action_lower := strLower action
  let checks : List String :=
    (if strContainsSub action_lower "climb" || strContainsSub action_lower "athletics" then
      ["Strength: " ++ toString ((dictGet character.abilities "strength").getD 10)]
    else []) ++
    (if strContainsSub action_lower "persuade" || strContainsSub action_lower "charisma" ||
        strContainsSub action_lower "convince" then
      ["Charisma: " ++ toString ((dictGet character.abilities "charisma").getD 10)]
    else []) ++
    (if strContainsSub action_lower "stealth" || strContainsSub action_lower "sneak" then
      ["Dexterity: " ++ toString ((dictGet character.abilities "dexterity").getD 10)]
    else [])
  if checks.isEmpty then "No specific ability checks needed"
  else String.intercalate "; " checks

/-- `Keeper._identify_obstacles`. -/
def identify_obstacles (g : GameState) (action : String) : List String :=
  let action_lower := strLower action
  let world_str := strLower (pyStrOfStrDict g.world_state)
  (if strContainsSub action_lower "door" && strContainsSub world_str "locked" then
    ["Locked door"] else []) ++
  (if strContainsSub action_lower "climb" && strContainsSub world_str "slippery" then
    ["Slippery surface"] else [])

/-- System prompt of `Keeper._reason_about_outcome`. -/
def reasonSystemPrompt : String :=
  "You are a reasoning system for a D&D game. Analyze the situation \n            and determine the likely outcome. Be fair but realistic - not every action \n            should succeed. Consider the character\x27s capabilities and the obstacles present."

/-- `Keeper._reason_about_outcome`: builds the outcome prompt and delegates to
the generation service.  The source applies `.format(...)` to the *already
interpolated* f-string: the template it formats is the built text, whose only
replacement fields are braces arriving inside the interpolated values
(action text, names, facts, …), so for brace-containing foreign text the
call raises `KeyError`/`ValueError`, and that exception escapes
`resolve_action`. -/
def reason_about_outcome (gen : String → String → String) (character : CharBase)
    (action : String) (facts obstacles : List String) :
    Except FormatError String :=
  let ability_summary := if character.abilities.isEmpty then "Standard abilities"
    else String.intercalate ", " (character.abilities.map fun p => p.1 ++ ": " ++ toString p.2)
  let inventory_summary := if character.inventory.isEmpty then "No items"
    else String.intercalate ", " character.inventory
  let facts_str := String.intercalate ", " (facts.take 10)
  let obstacles_str := if obstacles.isEmpty then "None"
    else String.intercalate ", " obstacles
  let prompt_text :=
    "\nAction: " ++ action ++
    "\nCharacter: " ++ character.name ++
    "\nAbilities: " ++ ability_summary ++
    "\nInventory: " ++ inventory_summary ++
    "\nHealth: " ++ toString character.health ++ "/" ++ toString character.max_health ++
    "\nRelevant Facts: " ++ facts_str ++
    "\nObstacles: " ++ obstacles_str ++
    "\n\nDetermine if this action should succeed, fail, or partially succeed. Consider:" ++
    "\n1. Character abilities and items (do they have what\x27s needed?)" ++
    "\n2. Obstacles present (are they surmountable?)" ++
    "\n3. Narrative consistency (does this make sense?)" ++
    "\n4. Character health/state (are they in good condition?)" ++
    "\n\nRespond with: SUCCESS, FAILURE, or PARTIAL, followed by brief reasoning (2-3 sentences).\n"
  match pyFormat prompt_text
      [("action", action),
       ("character_name", character.name),
       ("ability_summary", ability_summary),
       ("inventory_summary", inventory_summary),
       ("health", toString character.health),
       ("max_health", toString character.max_health),
       ("facts", facts_str),
       ("obstacles", obstacles_str)] with
  | .error e => .error e
  | .ok formatted => .ok (gen reasonSystemPrompt formatted)

/-- `Keeper._build_reasoning_trace`: situation line, four fixed steps, then
the final conclusion from the generation service; a `KeyError`/`ValueError`
raised while formatting the outcome prompt propagates (the partially built
local trace is discarded). -/
def build_reasoning_trace (gen : String → String → String) (g : GameState)
    (character : CharBase) (action : String) (now : Nat) :
    Except FormatError ReasoningTrace :=
  let reasoning : ReasoningTrace :=
    { situation := character.name ++ " attempts to: " ++ action
      final_conclusion := ""
      timestamp := now }
  let reasoning := reasoning.add_step "Understanding the action" []
    (some ("Player wants to: " ++ action))
  let relevant_facts := gather_relevant_facts g character action
  let reasoning := { reasoning with relevant_facts := relevant_facts }
  let reasoning := reasoning.add_step "Gathering relevant facts" relevant_facts
    (some ("Found " ++ toString relevant_facts.length ++ " relevant facts"))
  let ability_check := check_abilities character action
  let reasoning := reasoning.add_step "Checking character abilities" [ability_check]
    (some ability_check)
  let obstacles := identify_obstacles g action
  let reasoning := reasoning.add_step "Identifying obstacles" obstacles
    (some ("Found " ++ toString obstacles.length ++ " potential obstacles"))
  match reason_about_outcome gen character action relevant_facts obstacles with
  | .error e => .error e
  | .ok outcome_reasoning => .ok { reasoning with final_conclusion := outcome_reasoning }

/-- `Keeper._determine_outcome`: first case-insensitive keyword hit in the
order SUCCESS, PARTIAL, FAILURE; otherwise UNCERTAIN. -/
def determine_outcome (reasoning : ReasoningTrace) : RulingOutcome :=
  let conclusion := strUpper reasoning.final_conclusion
  if strContainsSub conclusion "SUCCESS" then .SUCCESS
  else if strContainsSub conclusion "PARTIAL" then .PARTIAL
  else if strContainsSub conclusion "FAILURE" then .FAILURE
  else .UNCERTAIN

/-- `Keeper._generate_narrative`. -/
def generate_narrative (gen : String → String → String) (action : String)
    (outcome : RulingOutcome) (reasoning : ReasoningTrace) : String :=
  gen "You are a Dungeon Master narrating the outcome of a player action. Be vivid and engaging."
    ("\nAction: " ++ action ++
     "\nOutcome: " ++ outcome.value ++
     "\nReasoning: " ++ reasoning.final_conclusion ++
     "\n\nNarrate what happens in 2-3 sentences. Make it engaging and consistent with the outcome.\n")

/-- `Keeper._determine_state_changes`: coarse keyword heuristics conditioned
on the outcome. -/
def determine_state_changes (action : String) (outcome : RulingOutcome)
    (character : CharBase) : StateChanges :=
  let action_lower := strLower action
  let changes : StateChanges := {}
  let changes :=
    if (strContainsSub action_lower "find" || strContainsSub action_lower "pick up" ||
        strContainsSub action_lower "take") && outcome = .SUCCESS then
      if strContainsSub action_lower "key" then
        { changes with item_acquired := some "brass_key" }
      else if strContainsSub action_lower "potion" then
        { changes with item_acquired := some "healing_potion" }
      else changes
    else changes
  let changes :=
    if (strContainsSub action_lower "use" || strContainsSub action_lower "drink") &&
        strContainsSub action_lower "potion" && outcome = .SUCCESS then
      { changes with health_restored := some 20, item_used := some "healing_potion" }
    else changes
  let changes :=
    if (strContainsSub action_lower "damage" || strContainsSub action_lower "attack") &&
        outcome = .FAILURE then
      { changes with damage_taken := some 5 }
    else changes
  changes

/-- `GameMaster.resolve_action`: fails with `CharacterNotFoundError` for an
unknown name, otherwise builds the trace (letting a formatting
`KeyError`/`ValueError` escape), classifies the outcome, generates the
narrative and derives the state delta. -/
def resolve_action (gen : String → String → String) (now : Nat) (g : GameState)
    (player_name action : String) : Except GMError Ruling :=
  match g.get_character player_name with
  | none => .error (.characterNotFound player_name)
  | some ch =>
    match build_reasoning_trace gen g ch.core action now with
    | .error e => .error (.format e)
    | .ok reasoning =>
      let outcome := determine_outcome reasoning
      let narrative := generate_narrative gen action outcome reasoning
      let state_changes := determine_state_changes action outcome ch.core
      .ok { action := action
            outcome := outcome
            reasoning := reasoning
            narrative := narrative
            state_changes := state_changes
            timestamp := now }

/-! ## Turn orchestration graph (`dnd/core/graph/game_graph.py`)

The compiled LangGraph is the linear chain
`select_player → player_action → gm_resolve → update_state → gm_narrate`,
each node a function on the shared `GameGraphState` dict.  A node may raise;
the raise aborts the remaining nodes, but in-place mutations of the shared
`game_state` object made before the raise survive, so an error result carries
the graph state as of the raise point.  Every node also appends records to
the session logger (`RealmRecorder`), modeled as an explicit log list. -/

/-- The `ValueError`s raised inside the pipeline. -/
inductive PipeError where
  | noPlayers                      -- "No players in game"
  | noCurrentPlayer                -- "No current player selected"
  | agentNotFound (p : String)     -- "Player agent not found for ..."
  | missingPlayerOrAction          -- "Missing player or action"
  | characterNotFound (p : String) -- propagated from `resolve_action`
  | formatError (e : FormatError)  -- KeyError/ValueError escaping `resolve_action`
  deriving Repr, DecidableEq

/-- One record sent to the logging sink. -/
inductive LogEntry where
  | event (event_type : EventType) (actor : String) (content : String)
  | rulingEntry (r : Ruling) (turn_number : Nat)
  | turnEntry (t : Turn)
  deriving Repr, DecidableEq

/-- `GameGraphState` (the logger handle is modeled by the log lists in
`NodeResult` rather than as a state field). -/
structure GraphState where
  game_state : GameState
  current_player : Option String := none
  action : Option String := none
  ruling : Option Ruling := none
  narration : Option String := none
  manual_action : Option String := none
  deriving Repr, DecidableEq

/-- Result of running a node (or a chain of nodes): the updated graph state
and emitted log records, or the raised error together with the state and log
as of the raise point. -/
inductive NodeResult where
  | ok (s : GraphState) (log : List LogEntry)
  | err (e : PipeError) (s : GraphState) (log : List LogEntry)
  deriving Repr, DecidableEq

/-- Sequential composition of pipeline steps: a raise skips the rest. -/
def NodeResult.andThen (r : NodeResult) (f : GraphState → NodeResult) : NodeResult :=
  match r with
  | .ok s log =>
    match f s with
    | .ok s' log' => .ok s' (log ++ log')
    | .err e s' log' => .err e s' (log ++ log')
  | .err e s log => .err e s log

/-- `select_player_node`: round-robin over the character keys, indexed by
`current_turn % len(players)`; raises when the mapping is empty. -/
def select_player_node (gs : GraphState) : NodeResult :=
  let players := dictKeys gs.game_state.characters
  if players.isEmpty then .err .noPlayers gs []
  else
    .ok { gs with
          current_player := players[gs.game_state.current_turn % players.length]? } []

/-- A player agent's `decide_action`, the repository's wrapper around the
generation service; modeled as its observable function from the game state to
the decided action text. -/
def PlayerAgentFn : Type := GameState → String

/-- `player_action_node`: a truthy manual override is used verbatim (and left
in place — no node clears the `manual_action` key); otherwise the selected
character's agent decides. -/
def player_action_node (players : List (String × PlayerAgentFn)) (gs : GraphState) :
    NodeResult :=
  if ¬ pyTruthyOptStr gs.current_player then .err .noCurrentPlayer gs []
  else
    let current_player := gs.current_player.getD ""
    if pyTruthyOptStr gs.manual_action then
      let action := gs.manual_action.getD ""
      .ok { gs with action := some action }
        [.event .player_action current_player
          (current_player ++ " performs manual action: " ++ action)]
    else
      match dictGet players current_player with
      | none => .err (.agentNotFound current_player) gs []
      | some agent =>
        .ok { gs with action := some (agent gs.game_state) }
          [.event .player_action current_player
            (current_player ++ " is deciding their action")]

/-- `gm_resolve_node`: guards against a falsy player or action, then delegates
to `resolve_action` and logs the ruling. -/
def gm_resolve_node (gen : String → String → String) (now : Nat) (gs : GraphState) :
    NodeResult :=
  if ¬ (pyTruthyOptStr gs.current_player && pyTruthyOptStr gs.action) then
    .err .missingPlayerOrAction gs []
  else
    match resolve_action gen now gs.game_state (gs.current_player.getD "") (gs.action.getD "") with
    | .error (.characterNotFound p) => .err (.characterNotFound p) gs []
    | .error (.format e) => .err (.formatError e) gs []
    | .ok ruling =>
      .ok { gs with ruling := some ruling }
        [.rulingEntry ruling gs.game_state.current_turn]

/-- The recognized-key interpretation of a ruling's state delta on the acting
character (the body of `update_state_node` between the character lookup and
the world-state merge): inventory first, then health, clamped into
`[0, max_health]`. -/
def applyChangesChar (changes : StateChanges) (character : Character) : Character :=
  let character := match changes.item_acquired with
    | some item => character.add_item item
    | none => character
  let character := match changes.item_used with
    | some item => character.remove_item item
    | none => character
  let character := match changes.health_restored with
    | some n => character.mapCore fun c =>
        { c with health := min c.max_health (c.health + (n : Int)) }
    | none => character
  match changes.damage_taken with
  | some n => character.mapCore fun c =>
      { c with health := max 0 (c.health - (n : Int)) }
  | none => character

/-- The state-change log records `update_state_node` emits. -/
def changeLogEntries (changes : StateChanges) (current_player : String) : List LogEntry :=
  (match changes.item_acquired with
   | some item => [.event .state_change "system" (current_player ++ " acquired " ++ item)]
   | none => []) ++
  (match changes.item_used with
   | some item => [.event .state_change "system" (current_player ++ " used " ++ item)]
   | none => [])

/-- `update_state_node`: no-op without a ruling or a known acting character;
otherwise applies the recognized delta keys to the character and merges
`world_changes` into the world-fact mapping (unrecognized keys are ignored). -/
def update_state_node (gs : GraphState) : NodeResult :=
  match gs.ruling with
  | none => .ok gs []
  | some ruling =>
    let current_player := gs.current_player.getD ""
    match gs.game_state.get_character current_player with
    | none => .ok gs []
    | some character =>
      let changes := ruling.state_changes
      let character := applyChangesChar changes character
      let g := gs.game_state
      let g := { g with
                 characters := dictSet g.characters current_player character
                 world_state := dictUpdate g.world_state changes.world_changes }
      .ok { gs with game_state := g } (changeLogEntries changes current_player)

/-- `gm_narrate_node`: builds the finished `Turn` (numbered
`current_turn + 1`) with its two baseline events, appends it via `add_turn`
and logs it. -/
def gm_narrate_node (now : Nat) (gs : GraphState) : NodeResult :=
  match gs.ruling with
  | none => .ok gs []
  | some ruling =>
    let narration := ruling.narrative
    let g := gs.game_state
    let n := g.current_turn + 1
    let turn : Turn :=
      { turn_number := n
        player_name := gs.current_player
        action := gs.action
        gm_response := some narration
        ruling := some ruling
        state_snapshot := { characters := g.characters, world_state := g.world_state }
        timestamp := now
        events :=
          [ { turn_number := n
              event_type := .player_action
              actor := pyOrStr gs.current_player "Unknown"
              content := pyOrStr gs.action ""
              timestamp := now },
            { turn_number := n
              event_type := .gm_narration
              actor := "GM"
              content := narration
              timestamp := now } ] }
    .ok { gs with game_state := g.add_turn turn now, narration := some narration }
      [.turnEntry turn]

/-- One `graph.invoke`: the five nodes in sequence. -/
def invokeGraph (gen : String → String → String) (players : List (String × PlayerAgentFn))
    (now : Nat) (gs : GraphState) : NodeResult :=
  ((((select_player_node gs).andThen
      (player_action_node players)).andThen
      (gm_resolve_node gen now)).andThen
      update_state_node).andThen
      (gm_narrate_node now)

/-! ## Persistence (`dnd/core/logging/storage.py`)

`save_session` stores `json.dumps(game_state.model_dump(), default=str)`
keyed by session id; `load_session` rebuilds with `GameState(**state_dict)`.
The embedding composes `model_dump` with the JSON round trip: every field is
JSON-faithful except set-valued ones — a Python `set` is not JSON
serializable, so `default=str` renders it as its `str(...)` text. -/

/-- `str(s)` for a `set` of strings (element order in CPython is hash-driven;
the model uses insertion order — parsing rejects any such text regardless). -/
def pyStrOfStrSet (xs : List String) : String :=
  if xs.isEmpty then "set()"
  else "\x7b" ++ String.intercalate ", " (xs.map fun x => sq ++ x ++ sq) ++ "\x7d"

/-- The JSON value under a dumped `Set[str]` field after the round trip:
either a proper array, or the `default=str` text rendering. -/
inductive SetDumpVal where
  | jarr (xs : List String)
  | jstr (s : String)
  deriving Repr, DecidableEq

/-- The JSON document of one dumped character: the field mapping of the
concrete class, kind-specific fields included — but no kind tag. -/
structure CharacterDump where
  name : String
  health : Int
  max_health : Int
  inventory : List String
  location : String
  abilities : List (String × Int)
  known_facts : SetDumpVal
  secrets : List (String × String)
  player_id : Option String := none
  secret_objectives : Option (List String) := none
  motivations : Option (List String) := none
  personality : Option String := none
  disposition : Option (List (String × Int)) := none
  knowledge : Option (List String) := none
  deriving Repr, DecidableEq

/-- `char.model_dump()` followed by the `json.dumps(..., default=str)` /
`json.loads` round trip: the `known_facts` set degrades to its text form. -/
def Character.dumpJson (ch : Character) : CharacterDump :=
  let c := ch.core
  let base : CharacterDump :=
    { name := c.name
      health := c.health
      max_health := c.max_health
      inventory := c.inventory
      location := c.location
      abilities := c.abilities
      known_facts := .jstr (pyStrOfStrSet c.known_facts)
      secrets := c.secrets }
  match ch with
  | .base _ => base
  | .player _ pid so => { base with player_id := some pid, secret_objectives := some so }
  | .npc _ m p d k =>
    { base with motivations := some m, personality := some p,
                disposition := some d, knowledge := some k }

/-- Pydantic validation failures relevant here. -/
inductive PydanticError where
  | setFromString   -- `Set[str]` rejects a `str` input value
  deriving Repr, DecidableEq

/-- Validation of a `Set[str]` field: lists/sets validate, strings do not. -/
def parseSetField : SetDumpVal → Except PydanticError (List String)
  | .jarr xs => .ok xs
  | .jstr _ => .error .setFromString

/-- Pydantic validation of one `characters` entry against its annotation,
the base `Character` class: only the base fields are read (unknown keys such
as `player_id` are ignored by default), so the result is always the base
kind — the dump carries no tag that could say otherwise. -/
def parse_character_base (d : CharacterDump) : Except PydanticError Character :=
  (parseSetField d.known_facts).map fun kf =>
    .base { name := d.name
            health := d.health
            max_health := d.max_health
            inventory := d.inventory
            location := d.location
            abilities := d.abilities
            known_facts := kf
            secrets := d.secrets }

/-- Pydantic validation of one `npcs` entry against its annotation `NPC`:
the NPC fields are read (with their declared defaults when absent). -/
def parse_character_npc (d : CharacterDump) : Except PydanticError Character :=
  (parseSetField d.known_facts).map fun kf =>
    .npc { name := d.name
           health := d.health
           max_health := d.max_health
           inventory := d.inventory
           location := d.location
           abilities := d.abilities
           known_facts := kf
           secrets := d.secrets }
      (d.motivations.getD []) (d.personality.getD "")
      (d.disposition.getD []) (d.knowledge.getD [])

/-- The JSON document of one dumped `GameState`.  `turns` round-trips
verbatim: its nested `Dict[str, Any]` payloads are not re-validated on load
(the set renderings buried in turn snapshots degrade too, but nothing reads
them back through a typed annotation). -/
structure GameStateDump where
  session_id : String
  current_turn : Nat
  turns : List Turn
  characters : List (String × CharacterDump)
  npcs : List (String × CharacterDump)
  world_state : List (String × String)
  knowledge_graph : KnowledgeGraph
  created_at : Nat
  updated_at : Nat
  deriving Repr, DecidableEq

/-- `game_state.model_dump()` plus the JSON round trip of `save_session`. -/
def GameState.dumpJson (g : GameState) : GameStateDump :=
  { session_id := g.session_id
    current_turn := g.current_turn
    turns := g.turns
    characters := g.characters.map fun p => (p.1, p.2.dumpJson)
    npcs := g.npcs.map fun p => (p.1, p.2.dumpJson)
    world_state := g.world_state
    knowledge_graph := g.knowledge_graph
    created_at := g.created_at
    updated_at := g.updated_at }

/-- `GameState(**state_dict)`: pydantic validation of the loaded document. -/
def parse_game_state (d : GameStateDump) : Except PydanticError GameState := do
  let characters ← d.characters.mapM fun p =>
    (parse_character_base p.2).map fun c => (p.1, c)
  let npcs ← d.npcs.mapM fun p =>
    (parse_character_npc p.2).map fun c => (p.1, c)
  .ok { session_id := d.session_id
        current_turn := d.current_turn
        turns := d.turns
        characters := characters
        npcs := npcs
        world_state := d.world_state
        knowledge_graph := d.knowledge_graph
        created_at := d.created_at
        updated_at := d.updated_at }

/-- `SessionStorage.save_session`: upsert keyed by session id. -/
def save_session (store : List (String × GameStateDump)) (g : GameState) :
    List (String × GameStateDump) :=
  dictSet store g.session_id g.dumpJson

/-- `SessionStorage.load_session`: `none` when no row exists, otherwise the
result of validating the stored document (which may raise). -/
def load_session (store : List (String × GameStateDump)) (session_id : String) :
    Option (Except PydanticError GameState) :=
  (dictGet store session_id).map parse_game_state

/-! ## Engine (`dnd/core/engine.py`) -/

/-- The mutable attributes of an initialized `GameEngine` that `run_turn`
touches: the world state, the persistent graph-state dict and the session
store.  The player-agent mapping and the generation service are passed
explicitly to `run_turn`. -/
structure EngineState where
  session_id : String
  game_state : GameState
  graph_state : GraphState
  store : List (String × GameStateDump) := []
  deriving Repr, DecidableEq

/-- The turn-result summary `run_turn` returns. -/
structure TurnResult where
  turn_number : Nat
  player : Option String
  action : Option String
  narration : Option String
  ruling : Option Ruling
  deriving Repr, DecidableEq

/-- `GameEngine.run_turn` on an initialized engine.  A truthy
`manual_action` argument is written into the live graph-state dict before
`graph.invoke`.  After the invoke, the source runs
`del self.graph_state["manual_action"]` on that same input dict — and then
immediately discards the dict via `self.graph_state = result`; since no node
clears the `manual_action` channel, the override value survives inside
`result` and hence inside the stored graph state. -/
def run_turn (gen : String → String → String) (players : List (String × PlayerAgentFn))
    (now : Nat) (es : EngineState) (manual_action : Option String) :
    Except (PipeError × EngineState) (EngineState × TurnResult) :=
  let gsIn :=
    if pyTruthyOptStr manual_action then { es.graph_state with manual_action := manual_action }
    else es.graph_state
  match invokeGraph gen players now gsIn with
  | .err e s _log =>
    -- the exception propagates before the `del`/reassignment/save lines run;
    -- `self.graph_state` is still the input dict, whose shared `game_state`
    -- object carries any mutations made before the raise
    .error (e, { es with game_state := s.game_state,
                         graph_state := { gsIn with game_state := s.game_state } })
  | .ok result _log =>
    let es' := { es with
                 game_state := result.game_state
                 graph_state := result
                 store := save_session es.store result.game_state }
    .ok (es', { turn_number := result.game_state.current_turn
                player := result.current_player
                action := result.action
                narration := result.narration
                ruling := result.ruling })

/-! ## Memory manager (`dnd/core/memory/manager.py`) -/

/-- Python slice `xs[:-w]` (for `w = 0` this is `xs[:0] = []`). -/
def pySliceUptoNeg (xs : List α) (w : Nat) : List α :=
  if w = 0 then [] else xs.take (xs.length - w)

/-- Python slice `xs[-w:]` (for `w = 0` this is `xs[0:] = xs`). -/
def pySliceFromNeg (xs : List α) (w : Nat) : List α :=
  if w = 0 then xs else xs.drop (xs.length - w)

/-- System prompt of `MemoryManager._summarize_turns`. -/
def summarySystemPrompt : String :=
  "You are a memory consolidation system. Create a concise summary of these game events, focusing on important facts, character state changes, and narrative developments. Keep it under 300 words."

/-- The one-line rendering of a turn inside the summarization prompt. -/
def turnText (t : Turn) : String :=
  let text := "Turn " ++ toString t.turn_number ++ ": "
  let text :=
    if pyTruthyOptStr t.player_name then
      text ++ t.player_name.getD "" ++ " " ++ pyOrStr t.action "" ++ ". "
    else text
  if pyTruthyOptStr t.gm_response then
    text ++ "GM: " ++ strTake (t.gm_response.getD "") 200
  else text

/-- `MemoryManager._summarize_turns`: `""` on an empty list, otherwise the
generation service applied to the compact rendering of the turns. -/
def summarize_turns (gen : String → String → String) (turns : List Turn)
    (character_name : Option String) : String :=
  if turns.isEmpty then ""
  else gen summarySystemPrompt (String.intercalate "\n" (turns.map turnText))

/-- `MemoryManager._extract_key_facts`: contents of the first 20 facts at or
above MEDIUM confidence (the character filter is an unimplemented `pass`). -/
def extract_key_facts (kg : KnowledgeGraph) (character_name : Option String) :
    List String :=
  ((kg.get_facts_by_confidence .MEDIUM).take 20).map Fact.content

/-- `MemoryManager._filter_turns_by_perspective`: keep an event when its
visibility list is empty or lists the character or the GM marker; keep a turn
when it retains a visible event or the character acted in it. -/
def filter_turns_by_perspective (turns : List Turn) (character_name : String) :
    List Turn :=
  turns.filterMap fun t =>
    let visible_events := t.events.filter fun e =>
      e.visible_to.isEmpty || e.visible_to.contains character_name ||
        e.visible_to.contains "GM"
    if ¬ visible_events.isEmpty || t.player_name == some character_name then
      some { t with events := visible_events }
    else none

/-- The context object `{summary, recent_turns, key_facts, total_turns}`. -/
structure MemoryContext where
  summary : Option String
  recent_turns : List Turn
  key_facts : List String
  total_turns : Nat
  deriving Repr, DecidableEq

/-- `MemoryManager.get_relevant_context` with window size
`max_context_turns`. -/
def get_relevant_context (gen : String → String → String) (max_context_turns : Nat)
    (g : GameState) (current_turn : Nat) (character_name : Option String) :
    MemoryContext :=
  let all_turns := g.turns
  let windowed : List Turn × Option String :=
    if all_turns.length ≤ max_context_turns then (all_turns, none)
    else (pySliceFromNeg all_turns max_context_turns,
          some (summarize_turns gen (pySliceUptoNeg all_turns max_context_turns)
                  character_name))
  let key_facts := extract_key_facts g.knowledge_graph character_name
  let recent_turns :=
    if pyTruthyOptStr character_name then
      filter_turns_by_perspective windowed.1 (character_name.getD "")
    else windowed.1
  { summary := windowed.2
    recent_turns := recent_turns
    key_facts := key_facts
    total_turns := all_turns.length }

/-! ## Small projection helpers and concrete fixtures -/

/-- The graph state carried by a node result, in both the normal and the
raised case (mutations made before a raise survive it). -/
def NodeResult.state : NodeResult → GraphState
  | .ok s _ => s
  | .err _ s _ => s

/-- Whether a node result is a normal completion. -/
def NodeResult.isOk : NodeResult → Bool
  | .ok _ _ => true
  | .err _ _ _ => false

/-- `mapCore` acts on the shared fields. -/
theorem Character.mapCore_core (f : CharBase → CharBase) (ch : Character) :
    (ch.mapCore f).core = f ch.core := by
  cases ch <;> rfl

/-- The sample player characters of the repository's example session. -/
def throgBase : CharBase :=
  { name := "Throg", location := "dungeon_entrance"
    abilities := [("strength", 16), ("dexterity", 12), ("charisma", 8)] }

def throg : Character := .player throgBase "throg" ["Find the ancient artifact"]

def elaraBase : CharBase :=
  { name := "Elara", health := 80, max_health := 80, location := "dungeon_entrance"
    abilities := [("strength", 10), ("dexterity", 16), ("charisma", 14)] }

def elara : Character := .player elaraBase "elara" []

/-- A two-character session state. -/
def g2 : GameState :=
  { session_id := "s1"
    characters := [("Throg", throg), ("Elara", elara)] }

/-- A generation service that always reports a success conclusion. -/
def gen0 : String → String → String := fun _ _ => "SUCCESS. It goes well."

/-- Player agents returning fixed decisions. -/
def throgAgent : PlayerAgentFn := fun _ => "I search the room"

def elaraAgent : PlayerAgentFn := fun _ => "I watch the shadows"

def agents2 : List (String × PlayerAgentFn) :=
  [("Throg", throgAgent), ("Elara", elaraAgent)]

/-! ## Shared lemmas -/

theorem add_item_core_health (ch : Character) (i : String) :
    (ch.add_item i).core.health = ch.core.health := by
  unfold Character.add_item
  split
  · rfl
  · rw [Character.mapCore_core]

theorem add_item_core_max_health (ch : Character) (i : String) :
    (ch.add_item i).core.max_health = ch.core.max_health := by
  unfold Character.add_item
  split
  · rfl
  · rw [Character.mapCore_core]

theorem remove_item_core_health (ch : Character) (i : String) :
    (ch.remove_item i).core.health = ch.core.health := by
  unfold Character.remove_item
  rw [Character.mapCore_core]

theorem remove_item_core_max_health (ch : Character) (i : String) :
    (ch.remove_item i).core.max_health = ch.core.max_health := by
  unfold Character.remove_item
  rw [Character.mapCore_core]

/-- Case-insensitive removal really removes: after `remove_item a`, no item
equal to `b` up to case remains. -/
theorem remove_item_kills_has_item (ch : Character) (a b : String)
    (h : strLower a = strLower b) :
    (ch.remove_item a).has_item b = false := by
  unfold Character.has_item Character.remove_item
  rw [Character.mapCore_core]
  have hnot : strLower b ∉
      ((ch.core.inventory.filter fun i => strLower i ≠ strLower a).map strLower) := by
    intro hmem
    rcases List.mem_map.mp hmem with ⟨x, hx, hxe⟩
    have hpred := (List.mem_filter.mp hx).2
    simp only [decide_eq_true_eq] at hpred
    exact hpred (hxe.trans h.symm)
  simpa using hnot

/-! ## C10 — `remove_item` is case-insensitive and touches only the inventory -/

/-- **C10.** For any pair of item strings equal up to letter case, after
`remove_item` with one of them `has_item` with the other is false; an
`add_item` followed by `remove_item` of the same item in any casing leaves
the character without the item; and restoring the original inventory
restores the original character exactly, i.e. no other field (shared or
kind-specific) changes. -/
theorem claim_C10_remove_item_case_insensitive (ch : Character) (item1 item2 : String)
    (h : strLower item1 = strLower item2) :
    (ch.remove_item item1).has_item item2 = false
    ∧ ((ch.add_item item1).remove_item item2).has_item item1 = false
    ∧ (ch.remove_item item1).mapCore (fun c => { c with inventory := ch.core.inventory }) = ch := by
  refine ⟨remove_item_kills_has_item ch item1 item2 h,
          remove_item_kills_has_item (ch.add_item item1) item2 item1 h.symm, ?_⟩
  cases ch <;> rfl

/-- Witness for C10 at `"Key"`/`"key"` on a concrete character. -/
theorem claim_C10_witness :
    strLower "Key" = strLower "key"
    ∧ ((throg.remove_item "Key").has_item "key" = false
       ∧ ((throg.add_item "Key").remove_item "key").has_item "Key" = false
       ∧ (throg.remove_item "Key").mapCore
           (fun c => { c with inventory := throg.core.inventory }) = throg) :=
  ⟨by decide, claim_C10_remove_item_case_insensitive throg "Key" "key" (by decide)⟩

/-! ## C4 — the health clamp keeps `0 ≤ health ≤ max_health` -/

/-- One application of the recognized state-delta keys preserves the health
invariant and the maximum. -/
theorem applyChangesChar_health_invariant (sc : StateChanges) (ch : Character)
    (h0 : 0 ≤ ch.core.health) (h1 : ch.core.health ≤ ch.core.max_health) :
    0 ≤ (applyChangesChar sc ch).core.health
    ∧ (applyChangesChar sc ch).core.health ≤ (applyChangesChar sc ch).core.max_health
    ∧ (applyChangesChar sc ch).core.max_health = ch.core.max_health := by
  unfold applyChangesChar
  cases hia : sc.item_acquired <;> cases hiu : sc.item_used <;>
    cases hhr : sc.health_restored <;> cases hdt : sc.damage_taken <;>
    simp only [Character.mapCore_core, add_item_core_health, add_item_core_max_health,
      remove_item_core_health, remove_item_core_max_health] <;>
    refine ⟨by omega, by omega, by simp⟩

/-- **C4.** Any finite sequence of `health_restored` (clamp-add capped at
`max_health`) and `damage_taken` (clamp-subtract floored at 0) applications —
here, any sequence of full recognized-key delta applications, whose health
amounts are the non-negative quantities the ruling engine emits — keeps
`0 ≤ health ≤ max_health`, with `max_health` itself unchanged. -/
theorem claim_C4_health_invariant (ch : Character) (deltas : List StateChanges)
    (h0 : 0 ≤ ch.core.health) (h1 : ch.core.health ≤ ch.core.max_health) :
    0 ≤ (deltas.foldl (fun c sc => applyChangesChar sc c) ch).core.health
    ∧ (deltas.foldl (fun c sc => applyChangesChar sc c) ch).core.health
        ≤ (deltas.foldl (fun c sc => applyChangesChar sc c) ch).core.max_health := by
  induction deltas generalizing ch with
  | nil => exact ⟨h0, h1⟩
  | cons sc rest ih =>
    have step := applyChangesChar_health_invariant sc ch h0 h1
    simpa using ih (applyChangesChar sc ch) step.1 step.2.1

/-- Witness for C4: a heal past the cap followed by an overkill hit, applied
to a concrete character. -/
theorem claim_C4_witness :
    (0 ≤ throg.core.health ∧ throg.core.health ≤ throg.core.max_health)
    ∧ (0 ≤ ([({ health_restored := some 50 } : StateChanges),
             { damage_taken := some 200 }].foldl (fun c sc => applyChangesChar sc c) throg).core.health
       ∧ ([({ health_restored := some 50 } : StateChanges),
           { damage_taken := some 200 }].foldl (fun c sc => applyChangesChar sc c) throg).core.health
          ≤ ([({ health_restored := some 50 } : StateChanges),
              { damage_taken := some 200 }].foldl (fun c sc => applyChangesChar sc c) throg).core.max_health) :=
  ⟨⟨by decide, by decide⟩,
   claim_C4_health_invariant throg
     [{ health_restored := some 50 }, { damage_taken := some 200 }]
     (by decide) (by decide)⟩

/-! ## C3 — `add_turn`, the counter and turn numbering -/

/-- A fresh session state with no turns. -/
def gEmptySession : GameState := { session_id := "s0" }

/-- A turn carrying an arbitrary number unrelated to the counter. -/
def tFive : Turn := { turn_number := 5 }

/-- The turn the narrate step would build on a fresh session. -/
def tOne : Turn := { turn_number := 1 }

/-- **C3 counterexample.** `add_turn` itself never touches `turn_number`:
appending a turn numbered 5 to a fresh state leaves the counter at 1, so the
appended Turn's `turn_number` differs from the new `current_turn`. -/
theorem claim_C3_counterexample :
    (gEmptySession.add_turn tFive 0).turns.getLast? = some tFive
    ∧ tFive.turn_number ≠ (gEmptySession.add_turn tFive 0).current_turn :=
  ⟨rfl, by decide⟩

/-- **C3 (amended).** After `add_turn`, `current_turn = len(turns)`
unconditionally.  `add_turn` does not renumber the appended Turn, but when
the at-rest invariant `current_turn = len(turns)` held before the call and
the Turn was built with `turn_number = current_turn + 1` (as `gm_narrate_node`
builds it), the appended Turn's number equals the new `current_turn`.  Among
the pipeline steps only the narrate node mutates the turn sequence or the
counter — the other four leave them (indeed, for three of them the whole
world state) unchanged — and the narrate node mutates them only through
`add_turn`, appending and advancing together. -/
theorem claim_C3_add_turn_amended :
    (∀ (g : GameState) (t : Turn) (now : Nat),
        (g.add_turn t now).current_turn = (g.add_turn t now).turns.length)
    ∧ (∀ (g : GameState) (t : Turn) (now : Nat),
        g.current_turn = g.turns.length → t.turn_number = g.current_turn + 1 →
        (g.add_turn t now).turns.getLast? = some t
          ∧ t.turn_number = (g.add_turn t now).current_turn)
    ∧ (∀ gs : GraphState, (select_player_node gs).state.game_state = gs.game_state)
    ∧ (∀ (players : List (String × PlayerAgentFn)) (gs : GraphState),
        (player_action_node players gs).state.game_state = gs.game_state)
    ∧ (∀ (gen : String → String → String) (now : Nat) (gs : GraphState),
        (gm_resolve_node gen now gs).state.game_state = gs.game_state)
    ∧ (∀ gs : GraphState,
        (update_state_node gs).state.game_state.turns = gs.game_state.turns
          ∧ (update_state_node gs).state.game_state.current_turn
              = gs.game_state.current_turn)
    ∧ (∀ (now : Nat) (gs : GraphState),
        (gm_narrate_node now gs).state.game_state = gs.game_state
          ∨ ∃ t, (gm_narrate_node now gs).state.game_state
              = gs.game_state.add_turn t now) := by
  refine ⟨?_, ?_, ?_, ?_, ?_, ?_, ?_⟩
  · intro g t now
    simp [GameState.add_turn]
  · intro g t now h1 h2
    refine ⟨?_, ?_⟩
    · simp [GameState.add_turn]
    · rw [h2, h1]; rfl
  · intro gs
    unfold select_player_node
    dsimp only
    split <;> rfl
  · intro players gs
    unfold player_action_node
    dsimp only
    (repeat' split) <;> rfl
  · intro gen now gs
    unfold gm_resolve_node
    (repeat' split) <;> rfl
  · intro gs
    rcases hr : gs.ruling with _ | r
    · constructor <;> simp [update_state_node, hr, NodeResult.state]
    · rcases hc : gs.game_state.get_character (gs.current_player.getD "") with _ | ch <;>
        constructor <;> simp [update_state_node, hr, hc, NodeResult.state]
  · intro now gs
    unfold gm_narrate_node
    rcases hr : gs.ruling with _ | r
    · left; rfl
    · right; exact ⟨_, rfl⟩

/-- Witness for C3 (amended): on a fresh session and a Turn numbered
`current_turn + 1` the appended Turn's number equals the new counter. -/
theorem claim_C3_witness :
    (gEmptySession.add_turn tOne 0).turns.getLast? = some tOne
    ∧ tOne.turn_number = (gEmptySession.add_turn tOne 0).current_turn :=
  claim_C3_add_turn_amended.2.1 gEmptySession tOne 0 rfl rfl

/-! ## C6 — outcome classification -/

/-- Specification-side keyword test: case-insensitive substring search of the
keyword in the conclusion text (both sides uppercased). -/
def keyword_ci_in (conclusion keyword : String) : Bool :=
  strContainsSub (strUpper conclusion) (strUpper keyword)

/-- Specification-side outcome classifier, written from the spec's words:
first case-insensitive keyword match in the order SUCCESS, PARTIAL, FAILURE;
UNCERTAIN when none match. -/
def outcome_classification_spec (conclusion : String) : RulingOutcome :=
  if keyword_ci_in conclusion "SUCCESS" then .SUCCESS
  else if keyword_ci_in conclusion "PARTIAL" then .PARTIAL
  else if keyword_ci_in conclusion "FAILURE" then .FAILURE
  else .UNCERTAIN

/-- **C6.** `_determine_outcome` is exactly the case-insensitive
first-match-priority classifier of the spec; in particular a conclusion
containing both "FAILURE" and "SUCCESS" classifies as SUCCESS, and matching
is case-insensitive with PARTIAL checked before FAILURE. -/
theorem claim_C6_outcome_classification :
    (∀ tr : ReasoningTrace,
        determine_outcome tr = outcome_classification_spec tr.final_conclusion)
    ∧ determine_outcome
        { situation := "", final_conclusion := "FAILURE of the lock, yet a SUCCESS overall" }
        = .SUCCESS
    ∧ determine_outcome
        { situation := "", final_conclusion := "a partial failure" } = .PARTIAL
    ∧ determine_outcome
        { situation := "", final_conclusion := "nothing conclusive" } = .UNCERTAIN := by
  have hS : strUpper "SUCCESS" = "SUCCESS" := by decide
  have hP : strUpper "PARTIAL" = "PARTIAL" := by decide
  have hF : strUpper "FAILURE" = "FAILURE" := by decide
  refine ⟨?_, by decide, by decide, by decide⟩
  intro tr
  simp only [determine_outcome, outcome_classification_spec, keyword_ci_in, hS, hP, hF]

/-! ## C5 — round-robin actor selection -/

/-- The actor `select_player_node` picks when the counter reads `t`. -/
def selectedActorAt (g : GameState) (t : Nat) : Option String :=
  (select_player_node { game_state := { g with current_turn := t } }).state.current_player

/-- Indexing by `t % len` over `range (2 * len)` walks the key list twice. -/
theorem roundRobin_getElem (keys : List String) :
    (List.range (2 * keys.length)).map (fun t => keys[t % keys.length]?)
      = (keys ++ keys).map some := by
  apply List.ext_getElem?
  intro i
  simp only [List.getElem?_map]
  rcases Nat.lt_or_ge i (2 * keys.length) with hi | hi
  · rw [List.getElem?_range hi]
    simp only [Option.map_some']
    rcases Nat.lt_or_ge i keys.length with h1 | h1
    · rw [Nat.mod_eq_of_lt h1, List.getElem?_append, if_pos h1,
        List.getElem?_eq_getElem h1]
      simp
    · have h2 : i - keys.length < keys.length := by omega
      have hmod : i % keys.length = i - keys.length := by
        rw [Nat.mod_eq_sub_mod h1, Nat.mod_eq_of_lt h2]
      rw [hmod, List.getElem?_append, if_neg (by omega), List.getElem?_eq_getElem h2]
      simp
  · rw [List.getElem?_eq_none (by simpa using hi)]
    rw [List.getElem?_eq_none (by simp; omega)]
    simp

/-- Counting through `map some`. -/
theorem count_map_some (l : List String) (x : String) :
    (l.map some).count (some x) = l.count x := by
  induction l with
  | nil => rfl
  | cons a t ih =>
    simp only [List.map_cons, List.count_cons, ih]
    rfl

/-- In a duplicate-free list every member occurs exactly once. -/
theorem count_one_of_nodup (l : List String) (h : l.Nodup) (x : String) (hx : x ∈ l) :
    l.count x = 1 := by
  induction l with
  | nil => cases hx
  | cons a t ih =>
    rcases List.nodup_cons.mp h with ⟨ha, ht⟩
    rcases List.mem_cons.mp hx with rfl | hxt
    · have h0 : t.count x = 0 := by
        rw [List.count_eq_zero]
        exact ha
      simp [List.count_cons, h0]
    · have hne : x ≠ a := fun e => ha (e ▸ hxt)
      simp [List.count_cons, ih ht hxt, hne]

/-- With a non-empty character mapping the node picks
`keys[(t mod len)]`. -/
theorem selectedActorAt_eq (g : GameState) (t : Nat) (h : g.characters ≠ []) :
    selectedActorAt g t
      = (dictKeys g.characters)[t % (dictKeys g.characters).length]? := by
  unfold selectedActorAt select_player_node
  have hne : (dictKeys g.characters).isEmpty = false := by
    simp [dictKeys, List.isEmpty_iff, h]
  simp [dictKeys] at hne
  simp [dictKeys, hne, NodeResult.state]

/-- **C5.** Selection with an empty character mapping raises `NoPlayersError`;
with `N ≥ 1` characters and no additions or removals the actor at counter `t`
is the key at index `t mod N` of the insertion-ordered keys, so over counters
`0 .. 2N-1` the selected sequence is the key list twice in insertion order,
and (keys being unique) each character is selected exactly twice. -/
theorem claim_C5_round_robin :
    (∀ gs : GraphState, gs.game_state.characters = [] →
        select_player_node gs = .err .noPlayers gs [])
    ∧ (∀ (g : GameState) (t : Nat), g.characters ≠ [] →
        selectedActorAt g t
          = (dictKeys g.characters)[t % (dictKeys g.characters).length]?)
    ∧ (∀ g : GameState, g.characters ≠ [] →
        (List.range (2 * (dictKeys g.characters).length)).map (selectedActorAt g)
          = (dictKeys g.characters ++ dictKeys g.characters).map some)
    ∧ (∀ g : GameState, g.characters ≠ [] → (dictKeys g.characters).Nodup →
        ∀ x ∈ dictKeys g.characters,
          ((List.range (2 * (dictKeys g.characters).length)).map
              (selectedActorAt g)).count (some x) = 2) := by
  have hmap : ∀ g : GameState, g.characters ≠ [] →
      (List.range (2 * (dictKeys g.characters).length)).map (selectedActorAt g)
        = (dictKeys g.characters ++ dictKeys g.characters).map some := by
    intro g h
    rw [List.map_congr_left fun t _ => selectedActorAt_eq g t h]
    exact roundRobin_getElem (dictKeys g.characters)
  refine ⟨?_, fun g t h => selectedActorAt_eq g t h, hmap, ?_⟩
  · intro gs h
    unfold select_player_node
    simp [dictKeys, h]
  · intro g h hnd x hx
    rw [hmap g h, List.map_append, List.count_append, count_map_some,
      count_one_of_nodup _ hnd x hx]

/-- Witness for C5 on the empty session and the two-character session. -/
theorem claim_C5_witness :
    select_player_node { game_state := gEmptySession }
      = .err .noPlayers { game_state := gEmptySession } []
    ∧ (List.range (2 * (dictKeys g2.characters).length)).map (selectedActorAt g2)
        = (dictKeys g2.characters ++ dictKeys g2.characters).map some
    ∧ ((List.range (2 * (dictKeys g2.characters).length)).map
          (selectedActorAt g2)).count (some "Throg") = 2 :=
  ⟨claim_C5_round_robin.1 _ rfl,
   claim_C5_round_robin.2.2.1 g2 (by decide),
   claim_C5_round_robin.2.2.2 g2 (by decide) (by decide) "Throg" (by decide)⟩

/-! ## C1 — unknown character: `resolve_action` fails and nothing mutates -/

/-- `resolve_action` on a name absent from the character mapping returns the
character-not-found error before doing anything else. -/
theorem resolve_action_not_found (gen : String → String → String) (now : Nat)
    (g : GameState) (name a : String) (h : g.get_character name = none) :
    resolve_action gen now g name a = .error (.characterNotFound name) := by
  unfold resolve_action
  rw [h]

/-- **C1.** For a character name absent from the World State,
`resolve_action` raises `CharacterNotFoundError` (producing no Ruling), and
the pipeline suffix that a resolve failure aborts — resolve, state
application, narration/turn recording — terminates with that error carrying
the graph state *unchanged* and an *empty* log: no Ruling stored, no Event
emitted, no Turn appended, the state after the failed call equal to the
state before it. -/
theorem claim_C1_unknown_character (gen : String → String → String) (now : Nat)
    (g : GameState) (gs : GraphState) (name a : String)
    (hg : g.get_character name = none)
    (hp : gs.current_player = some name) (hpne : name ≠ "")
    (ha : gs.action = some a) (hane : a ≠ "")
    (hchar : gs.game_state.get_character name = none) :
    resolve_action gen now g name a = .error (.characterNotFound name)
    ∧ (((gm_resolve_node gen now gs).andThen update_state_node).andThen
          (gm_narrate_node now))
        = .err (.characterNotFound name) gs [] := by
  refine ⟨resolve_action_not_found gen now g name a hg, ?_⟩
  have hres : resolve_action gen now gs.game_state name a
      = .error (.characterNotFound name) :=
    resolve_action_not_found gen now gs.game_state name a hchar
  have h1 : gm_resolve_node gen now gs = .err (.characterNotFound name) gs [] := by
    unfold gm_resolve_node
    simp [pyTruthyOptStr, hp, ha, hpne, hane, hres]
  rw [h1]
  rfl

/-- Witness for C1: the name "Ghost" is absent from the two-character
session. -/
theorem claim_C1_witness :
    resolve_action gen0 0 g2 "Ghost" "open the door"
      = .error (.characterNotFound "Ghost")
    ∧ (((gm_resolve_node gen0 0
            { game_state := g2, current_player := some "Ghost",
              action := some "open the door" }).andThen
          update_state_node).andThen (gm_narrate_node 0))
        = .err (.characterNotFound "Ghost")
            { game_state := g2, current_player := some "Ghost",
              action := some "open the door" } [] :=
  claim_C1_unknown_character gen0 0 g2
    { game_state := g2, current_player := some "Ghost", action := some "open the door" }
    "Ghost" "open the door" rfl rfl (by decide) rfl (by decide) rfl

/-! ## C9 — empty and whitespace-only acquired actions -/

/-- Agents that decide the empty string. -/
def agentsEmptyAction : List (String × PlayerAgentFn) :=
  [("Throg", fun _ => ""), ("Elara", fun _ => "")]

/-- Agents that decide a single space. -/
def agentsWhitespace : List (String × PlayerAgentFn) :=
  [("Throg", fun _ => " "), ("Elara", fun _ => " ")]

/-- Graph state with an empty acquired action. -/
def gsEmptyAct : GraphState :=
  { game_state := g2, current_player := some "Throg", action := some "" }

/-- Graph state with a whitespace-only acquired action. -/
def gsSpaceAct : GraphState :=
  { game_state := g2, current_player := some "Throg", action := some " " }

/-- **C9 counterexample.** When the agent decides the empty string, the turn
does *not* complete: `gm_resolve_node`'s guard `if not current_player or not
action` raises a `ValueError` ("Missing player or action"), contradicting
"no exception is raised". -/
theorem claim_C9_counterexample :
    invokeGraph gen0 agentsEmptyAction 1 { game_state := g2 }
      = .err .missingPlayerOrAction
          { game_state := g2, current_player := some "Throg", action := some "" }
          [.event .player_action "Throg" "Throg is deciding their action"] := by
  rfl

set_option maxRecDepth 40000

/-- `resolve_action` only ever returns a Ruling whose `action` field is the
action string it was handed, verbatim. -/
theorem resolve_action_ok_action (gen : String → String → String) (now : Nat)
    (g : GameState) (p a : String) (r : Ruling)
    (h : resolve_action gen now g p a = .ok r) : r.action = a := by
  unfold resolve_action at h
  split at h
  · cases h
  · split at h
    · cases h
    · cases h
      rfl

/-- **C9 (amended).** An acquired action that is the empty string makes the
resolve step raise its missing-action error (aborting the turn with no
Ruling, no state change and no Turn); any *non-empty* acquired action —
whitespace-only included — is passed to `resolve_action` verbatim with no
retry, and whenever resolution completes (in particular whenever the
interpolated outcome prompt survives its `.format(...)` call, as any
brace-free text does) the resulting Ruling records the action as-is; a
whole whitespace-action turn completes normally with the action recorded
unchanged. -/
theorem claim_C9_empty_action_amended :
    (∀ (gen : String → String → String) (now : Nat) (gs : GraphState),
        gs.action = some "" →
        gm_resolve_node gen now gs = .err .missingPlayerOrAction gs [])
    ∧ (∀ (gen : String → String → String) (now : Nat) (gs : GraphState)
          (p a : String) (r : Ruling),
        gs.current_player = some p → p ≠ "" → gs.action = some a → a ≠ "" →
        resolve_action gen now gs.game_state p a = .ok r →
        gm_resolve_node gen now gs
            = .ok { gs with ruling := some r }
                [.rulingEntry r gs.game_state.current_turn]
          ∧ r.action = a)
    ∧ (invokeGraph gen0 agentsWhitespace 1 { game_state := g2 }).isOk = true
    ∧ ((invokeGraph gen0 agentsWhitespace 1
          { game_state := g2 }).state.game_state.turns.map Turn.action)
        = [some " "] := by
  refine ⟨?_, ?_, rfl, rfl⟩
  · intro gen now gs ha
    unfold gm_resolve_node
    simp [ha, pyTruthyOptStr]
  · intro gen now gs p a r hp hpne ha hane hres
    refine ⟨?_, resolve_action_ok_action gen now gs.game_state p a r hres⟩
    unfold gm_resolve_node
    simp only [hp, ha, pyTruthyOptStr, Option.getD_some]
    rw [if_neg (by simp [hpne, hane]), hres]

/-- Witness for C9 (amended) at concrete empty- and whitespace-action graph
states (the whitespace resolution completing is discharged by computation). -/
theorem claim_C9_witness :
    gm_resolve_node gen0 1 gsEmptyAct = .err .missingPlayerOrAction gsEmptyAct []
    ∧ ∃ r : Ruling,
        resolve_action gen0 1 gsSpaceAct.game_state "Throg" " " = .ok r
        ∧ gm_resolve_node gen0 1 gsSpaceAct
            = .ok { gsSpaceAct with ruling := some r }
                [.rulingEntry r gsSpaceAct.game_state.current_turn]
        ∧ r.action = " " := by
  refine ⟨claim_C9_empty_action_amended.1 gen0 1 gsEmptyAct rfl, _, rfl, ?_⟩
  exact claim_C9_empty_action_amended.2.1 gen0 1 gsSpaceAct "Throg" " " _
    rfl (by decide) rfl (by decide) rfl

/-! ## C2 — the manual-action override is consumed but never cleared -/

/-- An initialized engine over the two-character session. -/
def es0 : EngineState :=
  { session_id := "s1", game_state := g2, graph_state := { game_state := g2 } }

/-- **C2.** The first `run_turn` uses the manual override verbatim (as the
claim says) — but the override survives in the stored graph state, because
the `del` runs on the input dict that the next line replaces with the invoke
result; the next `run_turn` with *no* manual action therefore replays
"open the door" for Elara instead of delegating to her agent (which decides
a different string for every game state). -/
theorem claim_C2_manual_action_replayed :
    ∃ (es1 : EngineState) (r1 : TurnResult),
      run_turn gen0 agents2 1 es0 (some "open the door") = .ok (es1, r1)
      ∧ r1.action = some "open the door"
      ∧ es1.graph_state.manual_action = some "open the door"
      ∧ ∃ (es2 : EngineState) (r2 : TurnResult),
          run_turn gen0 agents2 2 es1 none = .ok (es2, r2)
          ∧ r2.player = some "Elara"
          ∧ r2.action = some "open the door"
          ∧ ∀ g : GameState, elaraAgent g ≠ "open the door" := by
  refine ⟨_, _, rfl, rfl, rfl, _, _, rfl, rfl, rfl, ?_⟩
  intro g
  show "I watch the shadows" ≠ "open the door"
  decide

/-! ## C8 — the save/load round trip does not reconstruct the state -/

/-- **C8.** Saving the two-player session and loading it back by its session
id does not reconstruct an equal World State — it does not reconstruct a
World State at all: every character's `known_facts` set was rendered to text
by `json.dumps(..., default=str)`, and validating that text against
`Set[str]` fails.  Moreover the failure is not the only obstacle: even with
a JSON-faithful `known_facts` value, a dumped player character validates
against the base `Character` annotation (the dump has no kind tag), so the
player kind and its `player_id`/`secret_objectives` fields are lost. -/
theorem claim_C8_roundtrip_broken :
    load_session (save_session [] g2) "s1" = some (.error .setFromString)
    ∧ parse_character_base
        { throg.dumpJson with known_facts := .jarr throgBase.known_facts }
        = .ok (.base throgBase)
    ∧ Character.base throgBase ≠ throg := by
  refine ⟨rfl, rfl, by decide⟩

/-! ## C7 — windowing and perspective filtering of the memory context -/

/-- A turn whose only event is visible to `alice` alone. -/
def tVisAlice : Turn :=
  { turn_number := 1, player_name := some "alice"
    events := [{ turn_number := 1, event_type := .player_action, actor := "alice",
                 content := "sneak away", visible_to := ["alice"] }] }

/-- A one-turn state whose single turn is invisible to `bob`. -/
def gHidden : GameState :=
  { session_id := "h", current_turn := 1, turns := [tVisAlice] }

/-- A pipeline-shaped baseline turn: the action and narration events, both
with an empty (public) visibility list. -/
def mkBaselineTurn (n : Nat) (p act narr : String) : Turn :=
  { turn_number := n, player_name := some p, action := some act
    gm_response := some narr
    events := [ { turn_number := n, event_type := .player_action, actor := p,
                  content := act },
                { turn_number := n, event_type := .gm_narration, actor := "GM",
                  content := narr } ] }

/-- Five recorded turns over the two-character session. -/
def g5 : GameState :=
  { session_id := "s5", current_turn := 5
    characters := [("Throg", throg), ("Elara", elara)]
    turns := [ mkBaselineTurn 1 "Throg" "a1" "n1", mkBaselineTurn 2 "Elara" "a2" "n2",
               mkBaselineTurn 3 "Throg" "a3" "n3", mkBaselineTurn 4 "Elara" "a4" "n4",
               mkBaselineTurn 5 "Throg" "a5" "n5" ] }

/-- **C7 counterexample.** With a character name supplied, a history at most
the window size is *not* returned in full: the single turn of `gHidden` is
dropped from `bob`'s perspective, so `recent_turns` is empty while the turn
history is not. -/
theorem claim_C7_counterexample :
    (get_relevant_context gen0 3 gHidden 1 (some "bob")).recent_turns = []
    ∧ gHidden.turns ≠ [] :=
  ⟨rfl, by decide⟩

/-- **C7 (amended).** With no character name: a history of at most W turns is
returned in full with no summary; with more than W turns (W ≥ 1) the oldest
`len - W` turns are summarized and exactly the newest W are `recent_turns`.
With a character name the same windowing applies and the windowed turns are
then perspective-filtered, which can drop events and whole turns.  In the
scenario — 2 characters, W = 3, 5 recorded turns whose events are publicly
visible — the context for either character has exactly 3 `recent_turns` and
a summary derived from the first 2 turns, non-empty provided the generation
service returns non-empty text. -/
theorem claim_C7_windowing_amended :
    (∀ (gen : String → String → String) (W : Nat) (g : GameState) (ct : Nat),
        g.turns.length ≤ W →
        (get_relevant_context gen W g ct none).summary = none
        ∧ (get_relevant_context gen W g ct none).recent_turns = g.turns)
    ∧ (∀ (gen : String → String → String) (W : Nat) (g : GameState) (ct : Nat)
          (n : String), n ≠ "" → g.turns.length ≤ W →
        (get_relevant_context gen W g ct (some n)).summary = none
        ∧ (get_relevant_context gen W g ct (some n)).recent_turns
            = filter_turns_by_perspective g.turns n)
    ∧ (∀ (gen : String → String → String) (W : Nat) (g : GameState) (ct : Nat),
        1 ≤ W → W < g.turns.length →
        (get_relevant_context gen W g ct none).summary
            = some (summarize_turns gen (g.turns.take (g.turns.length - W)) none)
        ∧ (get_relevant_context gen W g ct none).recent_turns
            = g.turns.drop (g.turns.length - W)
        ∧ (get_relevant_context gen W g ct none).recent_turns.length = W)
    ∧ (∀ (gen : String → String → String) (W : Nat) (g : GameState) (ct : Nat)
          (n : String), n ≠ "" → 1 ≤ W → W < g.turns.length →
        (get_relevant_context gen W g ct (some n)).summary
            = some (summarize_turns gen (g.turns.take (g.turns.length - W)) (some n))
        ∧ (get_relevant_context gen W g ct (some n)).recent_turns
            = filter_turns_by_perspective (g.turns.drop (g.turns.length - W)) n)
    ∧ (∀ gen : String → String → String, (∀ sys usr, gen sys usr ≠ "") →
        ∀ n ∈ ["Throg", "Elara"],
        (get_relevant_context gen 3 g5 5 (some n)).recent_turns.length = 3
        ∧ ∃ s, (get_relevant_context gen 3 g5 5 (some n)).summary = some s
            ∧ s ≠ "" ∧ s = summarize_turns gen (g5.turns.take 2) (some n)) := by
  refine ⟨?_, ?_, ?_, ?_, ?_⟩
  · intro gen W g ct h
    constructor <;> simp [get_relevant_context, h, pyTruthyOptStr]
  · intro gen W g ct n hn h
    constructor <;> simp [get_relevant_context, h, pyTruthyOptStr, hn]
  · intro gen W g ct hW h
    have hnot : ¬ g.turns.length ≤ W := by omega
    have hW0 : W ≠ 0 := by omega
    refine ⟨?_, ?_, ?_⟩ <;>
      simp [get_relevant_context, hnot, pyTruthyOptStr, pySliceUptoNeg,
        pySliceFromNeg, hW0] <;> omega
  · intro gen W g ct n hn hW h
    have hnot : ¬ g.turns.length ≤ W := by omega
    have hW0 : W ≠ 0 := by omega
    constructor <;>
      simp [get_relevant_context, hnot, pyTruthyOptStr, pySliceUptoNeg,
        pySliceFromNeg, hW0, hn]
  · intro gen hgen n hn
    simp only [List.mem_cons, List.mem_singleton, List.not_mem_nil, or_false] at hn
    refine ⟨?_, summarize_turns gen (g5.turns.take 2) (some n), rfl, ?_, rfl⟩
    · rcases hn with rfl | rfl <;> rfl
    · exact hgen _ _

/-- Witness for C7 (amended) at the five-turn fixture. -/
theorem claim_C7_witness :
    ((get_relevant_context gen0 10 g5 5 none).summary = none
      ∧ (get_relevant_context gen0 10 g5 5 none).recent_turns = g5.turns)
    ∧ ((get_relevant_context gen0 3 g5 5 none).summary
          = some (summarize_turns gen0 (g5.turns.take (g5.turns.length - 3)) none)
        ∧ (get_relevant_context gen0 3 g5 5 none).recent_turns
            = g5.turns.drop (g5.turns.length - 3)
        ∧ (get_relevant_context gen0 3 g5 5 none).recent_turns.length = 3)
    ∧ ((get_relevant_context gen0 3 g5 5 (some "Throg")).recent_turns.length = 3
        ∧ ∃ s, (get_relevant_context gen0 3 g5 5 (some "Throg")).summary = some s
            ∧ s ≠ "" ∧ s = summarize_turns gen0 (g5.turns.take 2) (some "Throg")) :=
  ⟨claim_C7_windowing_amended.1 gen0 10 g5 5 (by decide),
   claim_C7_windowing_amended.2.2.1 gen0 3 g5 5 (by decide) (by decide),
   claim_C7_windowing_amended.2.2.2.2 gen0
     (fun sys usr => by show "SUCCESS. It goes well." ≠ ""; decide)
     "Throg" (by decide)⟩

end DnD
